import Mathlib

/-!
Verification development for a small backup orchestrator (`bbbb.py`).

The program mirrors a remote block device into a local image file and keeps a
btrfs subvolume inside that image synchronized with the remote device.  The
shallow embedding below models the program's pure computations directly
(partition-listing parsing, snapshot selection, device-path resolution) and
models its effectful stages (image initialization, backup session, CLI
pre-flight check) as functions from a `World` — the outcomes of every external
command — to the list of attempted external actions (`Event` trace) together
with the Python-level outcome (`Except PyErr`).
-/

set_option autoImplicit false

namespace BBBB

/-- Split a character list at every character satisfying `p`, keeping empty
pieces, with `acc` the (reversed) piece currently being read.  This is the
semantics of Python `s.split(sep)` for a one-character separator. -/
def splitPredAux (p : Char → Bool) : List Char → List Char → List (List Char)
  | [], acc => [acc.reverse]
  | c :: cs, acc =>
    if p c then acc.reverse :: splitPredAux p cs []
    else splitPredAux p cs (c :: acc)

/-- Model of Python `s.split(sep)` for a one-character separator (the source
only splits on `'\n'` and `':'`). -/
def pySplitChar (sep : Char) (s : String) : List String :=
  (splitPredAux (fun c => c = sep) s.data []).map String.mk

/-- Model of Python `s.strip()`: remove leading and trailing whitespace. -/
def pyStrip (s : String) : String :=
  String.mk (((s.data.dropWhile Char.isWhitespace).reverse.dropWhile
    Char.isWhitespace).reverse)

/-- Model of Python `s.rstrip('B')`: remove every trailing `'B'` character. -/
def pyRstripB (s : String) : String :=
  String.mk ((s.data.reverse.dropWhile (fun c => c = 'B')).reverse)

/-- Value of a list of decimal digit characters (most significant first). -/
def digitsVal (ds : List Char) : Nat :=
  ds.foldl (fun n c => 10 * n + (c.toNat - 48)) 0

/-- Model of Python `int(s)` on the strings this program feeds it: an optional
sign followed by decimal digits; `none` models the `ValueError` that
`int` raises on any other input. -/
def pyInt? (s : String) : Option Int :=
  match s.data with
  | [] => none
  | c :: ds =>
    if c = '-' then
      if ds.isEmpty then none
      else if ds.all Char.isDigit then some (-(digitsVal ds : Int)) else none
    else if c = '+' then
      if ds.isEmpty then none
      else if ds.all Char.isDigit then some ((digitsVal ds : Int)) else none
    else if (c :: ds).all Char.isDigit then some ((digitsVal (c :: ds) : Int))
    else none

/-- Model of Python `s.split()`: split on whitespace, dropping empty pieces. -/
def pySplit (s : String) : List String :=
  ((splitPredAux Char.isWhitespace s.data []).map String.mk).filter (fun p => p ≠ "")

/-- Model of Python `s.startswith(pre)`. -/
def pyStartswith (s pre : String) : Bool :=
  pre.data.isPrefixOf s.data

/-- Model of Python `fields[i]` on a split result (every use in the source is
guarded by a length check, so the default is never produced). -/
def pyIndex (xs : List String) (i : Nat) : String :=
  xs.getD i ""

/-- Lexicographic strict comparison of character lists by code point: the
semantics of Python `<`/`>` on strings. -/
def pyStrLtCore : List Char → List Char → Bool
  | [], [] => false
  | [], _ :: _ => true
  | _ :: _, [] => false
  | a :: as, b :: bs =>
    if a < b then true
    else if a = b then pyStrLtCore as bs
    else false

/-- Model of Python `s < t` on strings. -/
def pyStrLt (s t : String) : Bool :=
  pyStrLtCore s.data t.data

/-- External commands the program runs (locally via `subprocess` or remotely
over the SSH session).  Each constructor carries exactly the varying parts of
the command string the source builds; constant flags (`--machine … unit B
print`, `-o subvolid=5`, `bs=1K`, `--partscan`, `--format=raw`, `-c %s`) are
fixed in the source and absorbed into the constructor. -/
inductive Cmd where
  | parted (device : String)
  | blkid (dev : String)
  | remount_ro (dev : String)
  | dd (device : String) (count : Int)
  | losetup_bind (loopDev file : String)
  | mkfs_btrfs (uuid dev : String)
  | losetup_detach (loopDev : String)
  | mount (dev mountPoint : String)
  | umount (mountPoint : String)
  | btrbk (configFile : String)
  | subvol_delete (path : String)
  | subvol_list (mountPoint : String)
  | subvol_snapshot (src dst : String)
  | subvol_set_default (path : String)
  | stat (file : String)
deriving DecidableEq

/-- Observable actions of one session, in program order: local commands
attempted (`run`), remote commands issued (`ssh`), file-system effects and
prints. -/
inductive Event where
  | run (c : Cmd)
  | ssh (c : Cmd)
  | truncateFile (file : String) (size : Int)
  | fileWrite (file : String) (bytes : Int)
  | writeFile (path contents : String)
  | printOut (s : String)
deriving DecidableEq

/-- Python-level exceptions raised by the program.  `convError` is the
`ValueError` raised by a failed `int()` conversion; `calledProcessError` is
`subprocess.CalledProcessError` from `check=True`. -/
inductive PyErr where
  | valueError (msg : String)
  | runtimeError (msg : String)
  | calledProcessError (c : Cmd)
  | convError (s : String)
  | indexError
deriving DecidableEq

/-- One parsed partition line: `(part_num, size, start, fs_type)`.  The source
stores `size` and `start` as decimal strings (`str(int(end) - int(start))` and
the stripped start field); both are produced and later consumed through
`int()`, so the embedding keeps their integer values. -/
structure PartEntry where
  part_num : String
  size : Int
  start : Int
  fs_type : String
deriving DecidableEq

/-- Partition lines of `parse_parted_output` (`lines[2:]`): lines with fewer
than 5 colon-separated fields are skipped; otherwise `start`/`end` are
stripped of their `B` suffix and converted with `int()`, whose failure is the
unguarded `ValueError` modelled by `PyErr.convError`. -/
def parse_data_lines : List String → Except PyErr (List PartEntry)
  | [] => .ok []
  | line :: rest =>
    if (pySplitChar ':' line).length < 5 then parse_data_lines rest
    else
      match pyInt? (pyRstripB (pyIndex (pySplitChar ':' line) 2)),
            pyInt? (pyRstripB (pyIndex (pySplitChar ':' line) 1)) with
      | some e, some s =>
        match parse_data_lines rest with
        | .ok ps =>
          .ok ({ part_num := pyIndex (pySplitChar ':' line) 0, size := e - s,
                 start := s, fs_type := pyIndex (pySplitChar ':' line) 4 } :: ps)
        | .error err => .error err
      | none, _ => .error (.convError (pyRstripB (pyIndex (pySplitChar ':' line) 2)))
      | some _, none => .error (.convError (pyRstripB (pyIndex (pySplitChar ':' line) 1)))

/-- Model of `parse_parted_output`: fewer than 3 lines raises
`ValueError("Invalid parted output")`; the disk size is field 1 of line 1 with
the `B` suffix stripped (an out-of-range index is Python's `IndexError`);
the remaining lines are partition lines. -/
def parse_parted_output (output : String) : Except PyErr (String × List PartEntry) :=
  match pySplitChar '\n' (pyStrip output) with
  | _ :: l1 :: l2 :: rest =>
    match pySplitChar ':' l1 with
    | _ :: sizeField :: _ =>
      match parse_data_lines (l2 :: rest) with
      | .ok ps => .ok (pyRstripB sizeField, ps)
      | .error e => .error e
    | _ => .error .indexError
  | _ => .error (.valueError "Invalid parted output")

/-- Model of `get_partition_device`: `mmcblk`/`nvme` devices get a `p`
separator before the partition number. -/
def get_partition_device (device part_num : String) : String :=
  if pyStartswith device "/dev/mmcblk" || pyStartswith device "/dev/nvme" then
    device ++ "p" ++ part_num
  else
    device ++ part_num

/-- Model of `get_btrfs_partition_offset`: the start offset of the first
partition (in listing order) whose filesystem type is exactly `"btrfs"`.
The source's `int(btrfs_partition[2])` re-parses the very string whose
`int()` conversion already succeeded during parsing, so it yields the stored
integer value. -/
def get_btrfs_partition_offset (partitions : List PartEntry) : Except PyErr Int :=
  match partitions.find? (fun p => p.fs_type == "btrfs") with
  | some p => .ok p.start
  | none => .error (.valueError "No btrfs partition found on the device.")

/-- Outcomes of the external environment for one session: exit codes and
captured output/error streams of every local (`subprocess`) and remote
(`ssh.exec_command`) command, plus the remote peer address and the byte length
of the remote block device (what `dd` can read). -/
structure World where
  runExit : Cmd → Int
  runOut : Cmd → String
  runErr : Cmd → String
  sshOut : Cmd → String
  sshErr : Cmd → String
  sshExit : Cmd → Int
  peerAddr : String
  deviceLen : Int

/-- Model of `get_partitions_ssh`: issue the listing command over SSH and
parse its standard output.  The source never inspects the remote exit status
(`w.sshExit`). -/
def get_partitions_ssh (w : World) (device : String) :
    List Event × Except PyErr (String × List PartEntry) :=
  ([.ssh (.parted device)], parse_parted_output (w.sshOut (.parted device)))

/-- Model of `get_partitions_local`: run the listing command locally; a
non-zero exit raises `RuntimeError` wrapping the captured stderr, otherwise
stdout is parsed. -/
def get_partitions_local (w : World) (device : String) :
    List Event × Except PyErr (String × List PartEntry) :=
  ([.run (.parted device)],
    if w.runExit (.parted device) = 0 then
      parse_parted_output (w.runOut (.parted device))
    else
      .error (.runtimeError ("Failed to run parted: " ++ w.runErr (.parted device))))

/-- Byte length that `dd if=<device> bs=1K count=<count>` writes to its
standard output: `count` full 1 KiB blocks, capped by the device length.
This is the contract of the external `dd` tool, not of the source. -/
def dd_output_len (deviceLen count : Int) : Int :=
  min (1024 * count) deviceLen

/-- Model of `create_initial_image`: probe the remote geometry, read the UUID
of partition number 2, remount partition 1 read-only, truncate the output
file to the disk size, stream-copy `btrfs_start // 1024` KiB blocks from the
device front, then loop-bind the image, make the filesystem, and detach.
The last three commands use `check=True`, so each failure raises immediately. -/
def create_initial_image (w : World) (device output_file : String) :
    List Event × Except PyErr Unit :=
  match parse_parted_output (w.sshOut (.parted device)) with
  | .error e => ([.ssh (.parted device)], .error e)
  | .ok (disk_size, partitions) =>
    if partitions.isEmpty then
      ([.ssh (.parted device)], .error (.valueError "No partitions found on the device."))
    else
      if (pyStrip (w.sshOut (.blkid (get_partition_device device "2")))) = "" then
        ([.ssh (.parted device), .ssh (.blkid (get_partition_device device "2"))],
          .error (.valueError "Failed to get UUID of the btrfs partition."))
      else
        match pyInt? disk_size with
        | none =>
          ([.ssh (.parted device), .ssh (.blkid (get_partition_device device "2")),
            .ssh (.remount_ro (get_partition_device device "1"))],
            .error (.convError disk_size))
        | some ds =>
          match get_btrfs_partition_offset partitions with
          | .error e =>
            ([.ssh (.parted device), .ssh (.blkid (get_partition_device device "2")),
              .ssh (.remount_ro (get_partition_device device "1")),
              .truncateFile output_file ds], .error e)
          | .ok btrfs_start =>
            (([.ssh (.parted device), .ssh (.blkid (get_partition_device device "2")),
               .ssh (.remount_ro (get_partition_device device "1")),
               .truncateFile output_file ds,
               .ssh (.dd device (btrfs_start.fdiv 1024)),
               .fileWrite output_file (dd_output_len w.deviceLen (btrfs_start.fdiv 1024)),
               .run (.losetup_bind "/dev/loop0" output_file)] ++
              (if w.runExit (.losetup_bind "/dev/loop0" output_file) = 0 then
                [.run (.mkfs_btrfs (pyStrip (w.sshOut (.blkid (get_partition_device device "2")))) "/dev/loop0p2")] ++
                (if w.runExit (.mkfs_btrfs (pyStrip (w.sshOut (.blkid (get_partition_device device "2")))) "/dev/loop0p2") = 0 then
                  [.run (.losetup_detach "/dev/loop0")]
                 else [])
               else [])),
             (if w.runExit (.losetup_bind "/dev/loop0" output_file) ≠ 0 then
                .error (.calledProcessError (.losetup_bind "/dev/loop0" output_file))
              else if w.runExit (.mkfs_btrfs (pyStrip (w.sshOut (.blkid (get_partition_device device "2")))) "/dev/loop0p2") ≠ 0 then
                .error (.calledProcessError (.mkfs_btrfs (pyStrip (w.sshOut (.blkid (get_partition_device device "2")))) "/dev/loop0p2"))
              else if w.runExit (.losetup_detach "/dev/loop0") ≠ 0 then
                .error (.calledProcessError (.losetup_detach "/dev/loop0"))
              else .ok ()))

/-- One step of the snapshot-selection loop in `run_backup` (lines with fewer
than 9 whitespace fields are skipped; the name is field 8; names without the
`<subvolume>.` prefix are skipped; `not newest_snapshot` is Python falsiness,
true for both `None` and `""`). -/
def select_step (subvolume : String) (newest : Option String) (line : String) :
    Option String :=
  if (pySplit line).length < 9 then newest
  else
    if pyStartswith (pyIndex (pySplit line) 8) (subvolume ++ ".") = false then newest
    else
      match newest with
      | none => some (pyIndex (pySplit line) 8)
      | some n =>
        if n = "" || pyStrLt n (pyIndex (pySplit line) 8) then
          some (pyIndex (pySplit line) 8)
        else some n

/-- The snapshot selector of `run_backup`: fold `select_step` over the
subvolume-listing lines; `none` is the state in which the source raises
`ValueError("No snapshots found.")`. -/
def select_newest (subvolume : String) (lines : List String) : Option String :=
  lines.foldl (select_step subvolume) none

/-- The `btrbk` configuration text written by `run_backup`. -/
def btrbk_config_text (w : World) (mount_point subvolume : String) : String :=
  "\nvolume " ++ w.peerAddr ++ ":/mnt\n  target " ++ mount_point ++
    "\n  subvolume " ++ subvolume ++ "\n"

/-- The `try:` body of `run_backup` (SYNC and ROTATE): run `btrbk`
(`check=True`), best-effort delete of the writable subvolume (no check), list
subvolumes (captured; non-zero exit raises `RuntimeError`), select the newest
snapshot, snapshot it back and make it the default (both `check=True`). -/
def sync_rotate (w : World) (subvolume mount_point config_file : String) :
    List Event × Except PyErr Unit :=
  if w.runExit (.btrbk config_file) = 0 then
    (([.run (.btrbk config_file),
       .run (.subvol_delete (mount_point ++ "/" ++ subvolume)),
       .run (.subvol_list mount_point)] ++
      (if w.runExit (.subvol_list mount_point) = 0 then
        match select_newest subvolume (pySplitChar '\n' (pyStrip (w.runOut (.subvol_list mount_point)))) with
        | none => []
        | some newest =>
          if newest = "" then []
          else
            [.run (.subvol_snapshot (mount_point ++ "/" ++ newest) (mount_point ++ "/" ++ subvolume))] ++
            (if w.runExit (.subvol_snapshot (mount_point ++ "/" ++ newest) (mount_point ++ "/" ++ subvolume)) = 0 then
              [.run (.subvol_set_default (mount_point ++ "/" ++ subvolume))]
             else [])
       else [])),
     (if w.runExit (.subvol_list mount_point) ≠ 0 then
        .error (.runtimeError ("Failed to list btrfs subvolumes: " ++ w.runErr (.subvol_list mount_point)))
      else
        match select_newest subvolume (pySplitChar '\n' (pyStrip (w.runOut (.subvol_list mount_point)))) with
        | none => .error (.valueError "No snapshots found.")
        | some newest =>
          if newest = "" then .error (.valueError "No snapshots found.")
          else if w.runExit (.subvol_snapshot (mount_point ++ "/" ++ newest) (mount_point ++ "/" ++ subvolume)) ≠ 0 then
            .error (.calledProcessError (.subvol_snapshot (mount_point ++ "/" ++ newest) (mount_point ++ "/" ++ subvolume)))
          else if w.runExit (.subvol_set_default (mount_point ++ "/" ++ subvolume)) ≠ 0 then
            .error (.calledProcessError (.subvol_set_default (mount_point ++ "/" ++ subvolume)))
          else .ok ()))
  else
    ([.run (.btrbk config_file)], .error (.calledProcessError (.btrbk config_file)))

/-- The `finally:` block of `run_backup` (CLEANUP): unmount the local mount
point (`check=True`), detach the loop device (`check=True`), issue the remote
unmount.  Because the first two are checked and sequential, a failure of one
raises out of the `finally:` block and the remaining steps are not attempted. -/
def cleanup_steps (w : World) (mount_point loop_device : String) :
    List Event × Except PyErr Unit :=
  if w.runExit (.umount mount_point) = 0 then
    if w.runExit (.losetup_detach loop_device) = 0 then
      ([.run (.umount mount_point), .run (.losetup_detach loop_device),
        .ssh (.umount mount_point)], .ok ())
    else
      ([.run (.umount mount_point), .run (.losetup_detach loop_device)],
        .error (.calledProcessError (.losetup_detach loop_device)))
  else
    ([.run (.umount mount_point)], .error (.calledProcessError (.umount mount_point)))

/-- Model of `run_backup`: probe the image locally, loop-bind it and mount its
second partition (both `check=True`, outside any `try`), issue the remote
mount (exit status unchecked, stderr printed), write the `btrbk` config, then
run the `try … finally` pair `sync_rotate` / `cleanup_steps`.  Python
semantics of `finally`: an exception raised inside `finally` replaces the
in-flight exception; otherwise the body's outcome stands. -/
def run_backup (w : World) (device output_file subvolume : String) :
    List Event × Except PyErr Unit :=
  match get_partitions_local w output_file with
  | (tr0, .error e) => (tr0, .error e)
  | (tr0, .ok _) =>
    if w.runExit (.losetup_bind "/dev/loop0" output_file) = 0 then
      if w.runExit (.mount "/dev/loop0p2" "/mnt") = 0 then
        (tr0 ++
          [.run (.losetup_bind "/dev/loop0" output_file),
           .run (.mount "/dev/loop0p2" "/mnt"),
           .ssh (.mount (get_partition_device device "2") "/mnt"),
           .printOut (w.sshErr (.mount (get_partition_device device "2") "/mnt")),
           .writeFile "/tmp/btrbk.conf" (btrbk_config_text w "/mnt" subvolume)] ++
          (sync_rotate w subvolume "/mnt" "/tmp/btrbk.conf").1 ++
          (cleanup_steps w "/mnt" "/dev/loop0").1,
         match (cleanup_steps w "/mnt" "/dev/loop0").2 with
         | .error e => .error e
         | .ok _ => (sync_rotate w subvolume "/mnt" "/tmp/btrbk.conf").2)
      else
        (tr0 ++ [.run (.losetup_bind "/dev/loop0" output_file),
                 .run (.mount "/dev/loop0p2" "/mnt")],
          .error (.calledProcessError (.mount "/dev/loop0p2" "/mnt")))
    else
      (tr0 ++ [.run (.losetup_bind "/dev/loop0" output_file)],
        .error (.calledProcessError (.losetup_bind "/dev/loop0" output_file)))

instance {ε α : Type} [DecidableEq ε] [DecidableEq α] : DecidableEq (Except ε α) :=
  fun a b =>
    match a, b with
    | .ok x, .ok y => if h : x = y then .isTrue (by rw [h]) else .isFalse (by simp [h])
    | .error x, .error y => if h : x = y then .isTrue (by rw [h]) else .isFalse (by simp [h])
    | .ok _, .error _ => .isFalse (by simp)
    | .error _, .ok _ => .isFalse (by simp)

/-- Outcome of `main` after the SSH connection is up: either a `sys.exit(1)`
with the printed message, or the result of `run_backup` (an uncaught exception
from `run_backup` also ends the process with a non-zero exit). -/
inductive MainOutcome where
  | exit1 (msg : String)
  | backupResult (r : Except PyErr Unit)
deriving DecidableEq

/-- The size-mismatch message printed by `main`. -/
def size_mismatch_msg (localSize : Int) (remoteSize : String) : String :=
  "Output file size (" ++ toString localSize ++
    ") does not match remote device size (" ++ remoteSize ++ "). Aborting."

/-- Model of `main` after the SSH connection: `stat` the output file; if that
fails, run the Image Initializer (errors print and `sys.exit(1)`); otherwise
compare the file's byte length with the probed remote disk size and abort with
exit code 1 on mismatch; then run the backup. -/
def main_check (w : World) (device output : String) : List Event × MainOutcome :=
  if w.runExit (.stat output) = 0 then
    match pyInt? (pyStrip (w.runOut (.stat output))) with
    | none => ([.run (.stat output)], .exit1 "Error checking or creating output file")
    | some local_size =>
      match parse_parted_output (w.sshOut (.parted device)) with
      | .error _ =>
        ([.run (.stat output), .ssh (.parted device)],
          .exit1 "Error checking or creating output file")
      | .ok (remote_size, _) =>
        match pyInt? remote_size with
        | none =>
          ([.run (.stat output), .ssh (.parted device)],
            .exit1 "Error checking or creating output file")
        | some rs =>
          if local_size = rs then
            ([.run (.stat output), .ssh (.parted device)] ++
               (run_backup w device output "@").1,
             .backupResult (run_backup w device output "@").2)
          else
            ([.run (.stat output), .ssh (.parted device)],
              .exit1 (size_mismatch_msg local_size remote_size))
  else
    match create_initial_image w device output with
    | (trC, .error _) =>
      ([.run (.stat output)] ++ trC, .exit1 "Error checking or creating output file")
    | (trC, .ok _) =>
      ([.run (.stat output)] ++ trC ++ (run_backup w device output "@").1,
        .backupResult (run_backup w device output "@").2)

/-- Events that only read state (probes, listings, prints); everything else
mutates local or remote state. -/
def Event.isReadOnly : Event → Bool
  | .run (.stat _) => true
  | .run (.parted _) => true
  | .ssh (.parted _) => true
  | .run (.subvol_list _) => true
  | .printOut _ => true
  | _ => false

/-- A well-formed `parted --machine … unit B print` listing: 10 MiB disk, a
1 MiB `fat32` boot partition and a `btrfs` partition starting at byte
1048576. -/
def partedDemoOutput : String :=
  "BYT;\n/dev/sda:10485760B:scsi:512:512:msdos:Disk:;\n1:0B:1048576B:1048576B:fat32::;\n2:1048576B:10485760B:9437184B:btrfs::;"

/-- Like `partedDemoOutput`, but the `btrfs` partition starts at byte
1048577 — an offset that is not a multiple of 1024. -/
def partedOddOutput : String :=
  "BYT;\n/dev/sda:10485760B:scsi:512:512:msdos:Disk:;\n1:0B:1048577B:1048577B:fat32::;\n2:1048577B:10485760B:9437183B:btrfs::;"

/-- A `btrfs subvolume list` output with three timestamped snapshots of `@`
(name is whitespace field 8). -/
def subvolDemoOutput : String :=
  "ID 256 gen 10 top level 5 path @.20250101T0000\nID 257 gen 11 top level 5 path @.20250831T0152\nID 258 gen 12 top level 5 path @.20250601T1200"

/-- A world in which every command succeeds and the probes return the demo
geometry. -/
def baseWorld : World where
  runExit := fun _ => 0
  runOut := fun c =>
    match c with
    | .parted _ => partedDemoOutput
    | .subvol_list _ => subvolDemoOutput
    | .stat _ => "10485760"
    | _ => ""
  runErr := fun _ => ""
  sshOut := fun c =>
    match c with
    | .parted _ => partedDemoOutput
    | .blkid _ => "abcd-1234"
    | _ => ""
  sshErr := fun _ => ""
  sshExit := fun _ => 0
  peerAddr := "192.168.0.2"
  deviceLen := 10485760

/-- World for the C1 counterexample: the sync engine (`btrbk`) exits non-zero
and the local unmount in cleanup also fails. -/
def w1 : World :=
  { baseWorld with
    runExit := fun c =>
      match c with
      | .btrbk _ => 1
      | .umount _ => 1
      | _ => 0 }

/-- World for the C1 witness: only the sync engine fails; cleanup commands
succeed. -/
def w1b : World :=
  { baseWorld with
    runExit := fun c => match c with | .btrbk _ => 1 | _ => 0 }

/-- World for the C1 witness, ROTATE-failure mode: the sync engine succeeds
but the subvolume listing — a ROTATE step — exits non-zero; cleanup commands
succeed. -/
def w1c : World :=
  { baseWorld with
    runExit := fun c => match c with | .subvol_list _ => 1 | _ => 0,
    runErr := fun c => match c with | .subvol_list _ => "list failed" | _ => "" }

/-- World for the C2 counterexample: the loop-device bind fails. -/
def w2 : World :=
  { baseWorld with
    runExit := fun c => match c with | .losetup_bind _ _ => 1 | _ => 0 }

/-- World for the C3 counterexample: the remote geometry has its `btrfs`
partition at the odd offset 1048577. -/
def w3 : World :=
  { baseWorld with
    sshOut := fun c =>
      match c with
      | .parted _ => partedOddOutput
      | .blkid _ => "abcd-1234"
      | _ => "" }

/-- World for the C4 counterexample: the remote listing command exits
non-zero, yet leaves a (stale) parseable listing on stdout. -/
def w4 : World :=
  { baseWorld with sshExit := fun c => match c with | .parted _ => 1 | _ => 0 }

/-- World for the C4 witness: the local listing command exits non-zero with
an error message on stderr. -/
def w4b : World :=
  { baseWorld with
    runExit := fun c => match c with | .parted _ => 1 | _ => 0,
    runErr := fun c => match c with | .parted _ => "parted: device busy" | _ => "" }

/-- World for the C5 counterexample: `mkfs.btrfs` on the image's second
partition slot exits non-zero. -/
def w5 : World :=
  { baseWorld with
    runExit := fun c => match c with | .mkfs_btrfs _ _ => 1 | _ => 0 }

/-- World for the C7 witness: the existing output file's size (999) differs
from the probed remote disk size (10485760). -/
def w7 : World :=
  { baseWorld with
    runOut := fun c =>
      match c with
      | .parted _ => partedDemoOutput
      | .subvol_list _ => subvolDemoOutput
      | .stat _ => "999"
      | _ => "" }

/-- The names the snapshot-selection loop looks at: field 8 of every listing
line that has at least 9 whitespace-separated fields. -/
def listed_names (lines : List String) : List String :=
  lines.filterMap (fun line =>
    if (pySplit line).length < 9 then none else some (pyIndex (pySplit line) 8))

/-- The listed names carrying the `<subvolume>.` prefix — the candidate set
of the snapshot selector. -/
def matching_names (subvolume : String) (lines : List String) : List String :=
  (listed_names lines).filter (fun n => pyStartswith n (subvolume ++ "."))

/-- Reference maximum-tracking step: replace the accumulator whenever the new
name is strictly greater. -/
def omax_step (acc : Option String) (n : String) : Option String :=
  match acc with
  | none => some n
  | some m => if pyStrLt m n then some n else some m

/-- Reference maximum of a list of names, starting from `acc`. -/
def omax (acc : Option String) (ns : List String) : Option String :=
  ns.foldl omax_step acc

/-- The partition lines the parser keeps: at least 5 colon-separated
fields. -/
def kept_lines (dataLines : List String) : List String :=
  dataLines.filter (fun l => ! decide ((pySplitChar ':' l).length < 5))

/-- A partition line that triggers the parser's unguarded `int()` conversion
exception: at least 5 colon-separated fields, but its end or start field
(after stripping the `B` suffix) is not a decimal integer. -/
def badConvLine (line : String) : Prop :=
  ¬ (pySplitChar ':' line).length < 5 ∧
    (pyInt? (pyRstripB (pyIndex (pySplitChar ':' line) 2)) = none ∨
     pyInt? (pyRstripB (pyIndex (pySplitChar ':' line) 1)) = none)

instance (line : String) : Decidable (badConvLine line) := by
  unfold badConvLine
  infer_instance

end BBBB

namespace BBBB

/-- C1 counterexample: in a session where the sync engine exits non-zero and
the local unmount in cleanup then fails, the cleanup stage attempts the local
unmount but never attempts the loop-device detach nor the remote unmount —
so the three release steps are not attempted independently, and a failure of
one release step does skip the subsequent release steps (the `finally:` block
runs checked commands sequentially). -/
theorem C1_counterexample :
    w1.runExit (.btrbk "/tmp/btrbk.conf") ≠ 0 ∧
    Event.run (.umount "/mnt") ∈ (run_backup w1 "/dev/sda" "/backup.img" "@").1 ∧
    Event.run (.losetup_detach "/dev/loop0") ∉ (run_backup w1 "/dev/sda" "/backup.img" "@").1 ∧
    Event.ssh (.umount "/mnt") ∉ (run_backup w1 "/dev/sda" "/backup.img" "@").1 ∧
    (run_backup w1 "/dev/sda" "/backup.img" "@").2
      = .error (.calledProcessError (.umount "/mnt")) := by
  decide

/-- C2 counterexample: when the loop-device bind fails during MOUNT, the
session raises `CalledProcessError` immediately — before the `try … finally`
is entered — so none of the cleanup release steps (local unmount, loop
detach, remote unmount) is run, contradicting the claimed transition to
CLEANUP. -/
theorem C2_counterexample :
    w2.runExit (.losetup_bind "/dev/loop0" "/backup.img") ≠ 0 ∧
    (run_backup w2 "/dev/sda" "/backup.img" "@").2
      = .error (.calledProcessError (.losetup_bind "/dev/loop0" "/backup.img")) ∧
    Event.run (.umount "/mnt") ∉ (run_backup w2 "/dev/sda" "/backup.img" "@").1 ∧
    Event.run (.losetup_detach "/dev/loop0") ∉ (run_backup w2 "/dev/sda" "/backup.img" "@").1 ∧
    Event.ssh (.umount "/mnt") ∉ (run_backup w2 "/dev/sda" "/backup.img" "@").1 := by
  decide

/-- C3 counterexample: for a device whose btrfs partition starts at byte
1048577 (not a multiple of 1024), the Image Initializer issues
`dd bs=1K count=1024` and therefore copies 1048576 bytes — fewer than the
1048577-byte start offset of the filesystem-bearing partition. -/
theorem C3_counterexample :
    parse_parted_output partedOddOutput
      = .ok ("10485760",
          [{ part_num := "1", size := 1048577, start := 0, fs_type := "fat32" },
           { part_num := "2", size := 9437183, start := 1048577, fs_type := "btrfs" }]) ∧
    get_btrfs_partition_offset
        [{ part_num := "1", size := 1048577, start := 0, fs_type := "fat32" },
         { part_num := "2", size := 9437183, start := 1048577, fs_type := "btrfs" }]
      = .ok 1048577 ∧
    Event.ssh (.dd "/dev/sda" 1024) ∈ (create_initial_image w3 "/dev/sda" "/backup.img").1 ∧
    Event.fileWrite "/backup.img" 1048576 ∈ (create_initial_image w3 "/dev/sda" "/backup.img").1 ∧
    Event.fileWrite "/backup.img" 1048577 ∉ (create_initial_image w3 "/dev/sda" "/backup.img").1 := by
  decide

/-- C4 counterexample: when the remote partition-listing command exits
non-zero but leaves parseable text on stdout, `get_partitions_ssh` raises no
error at all: it parses the failed command's output and returns the result,
because the source never reads the remote exit status. -/
theorem C4_counterexample :
    w4.sshExit (.parted "/dev/sda") = 1 ∧
    get_partitions_ssh w4 "/dev/sda"
      = ([.ssh (.parted "/dev/sda")],
         .ok ("10485760",
           [{ part_num := "1", size := 1048576, start := 0, fs_type := "fat32" },
            { part_num := "2", size := 9437184, start := 1048576, fs_type := "btrfs" }])) := by
  decide

/-- C5 counterexample: when `mkfs.btrfs` on the image's second partition slot
exits non-zero, `create_initial_image` raises `CalledProcessError` with the
loop device still bound: the detach command is never attempted, contradicting
the claimed unconditional detach. -/
theorem C5_counterexample :
    w5.runExit (.mkfs_btrfs "abcd-1234" "/dev/loop0p2") ≠ 0 ∧
    Event.run (.mkfs_btrfs "abcd-1234" "/dev/loop0p2")
      ∈ (create_initial_image w5 "/dev/sda" "/backup.img").1 ∧
    Event.run (.losetup_detach "/dev/loop0")
      ∉ (create_initial_image w5 "/dev/sda" "/backup.img").1 ∧
    (create_initial_image w5 "/dev/sda" "/backup.img").2
      = .error (.calledProcessError (.mkfs_btrfs "abcd-1234" "/dev/loop0p2")) := by
  decide

/-- Concatenating on the left is injective on strings. -/
theorem str_append_left_cancel {s a b : String} (h : s ++ a = s ++ b) : a = b := by
  cases s
  cases a
  cases b
  simp [String.ext_iff] at h ⊢
  exact h

/-- A string carrying a (nonempty) `<subvolume>.` prefix is nonempty. -/
theorem pyStartswith_ne_empty {n p : String} (h : pyStartswith n (p ++ ".") = true) :
    n ≠ "" := by
  intro hn
  subst hn
  cases p with
  | mk l =>
    rcases l with _ | ⟨c, cs⟩ <;> simp [pyStartswith, List.isPrefixOf] at h

/-- Lexicographic comparison is irreflexive. -/
theorem pyStrLtCore_irrefl : ∀ (l : List Char), pyStrLtCore l l = false := by
  intro l
  induction l with
  | nil => rfl
  | cons c cs ih => simp [pyStrLtCore, lt_irrefl, ih]

/-- Lexicographic comparison is transitive. -/
theorem pyStrLtCore_trans : ∀ {a b c : List Char},
    pyStrLtCore a b = true → pyStrLtCore b c = true → pyStrLtCore a c = true := by
  intro a
  induction a with
  | nil =>
    intro b c h1 h2
    cases b with
    | nil => simp [pyStrLtCore] at h1
    | cons y ys =>
      cases c with
      | nil => simp [pyStrLtCore] at h2
      | cons z zs => simp [pyStrLtCore]
  | cons x xs ih =>
    intro b c h1 h2
    cases b with
    | nil => simp [pyStrLtCore] at h1
    | cons y ys =>
      cases c with
      | nil => simp [pyStrLtCore] at h2
      | cons z zs =>
        simp only [pyStrLtCore] at h1 h2 ⊢
        by_cases hxy : x < y
        · by_cases hyz : y < z
          · rw [if_pos (lt_trans hxy hyz)]
          · rw [if_neg hyz] at h2
            by_cases hyz2 : y = z
            · subst hyz2
              rw [if_pos hxy]
            · rw [if_neg hyz2] at h2
              exact absurd h2 (by simp)
        · rw [if_neg hxy] at h1
          by_cases hxy2 : x = y
          · subst hxy2
            rw [if_pos rfl] at h1
            by_cases hxz : x < z
            · rw [if_pos hxz]
            · rw [if_neg hxz] at h2 ⊢
              by_cases hxz2 : x = z
              · rw [if_pos hxz2] at h2 ⊢
                exact ih h1 h2
              · rw [if_neg hxz2] at h2
                exact absurd h2 (by simp)
          · rw [if_neg hxy2] at h1
            exact absurd h1 (by simp)

/-- Lexicographic comparison is connected: mutually incomparable lists are
equal. -/
theorem pyStrLtCore_connex : ∀ {a b : List Char},
    pyStrLtCore a b = false → pyStrLtCore b a = false → a = b := by
  intro a
  induction a with
  | nil =>
    intro b h1 _
    cases b with
    | nil => rfl
    | cons y ys => simp [pyStrLtCore] at h1
  | cons x xs ih =>
    intro b h1 h2
    cases b with
    | nil => simp [pyStrLtCore] at h2
    | cons y ys =>
      simp only [pyStrLtCore] at h1 h2
      by_cases hxy : x < y
      · rw [if_pos hxy] at h1
        exact absurd h1 (by simp)
      · by_cases hyx : y < x
        · rw [if_pos hyx] at h2
          exact absurd h2 (by simp)
        · have hxy2 : x = y := le_antisymm (le_of_not_lt hyx) (le_of_not_lt hxy)
          subst hxy2
          rw [if_neg hxy, if_pos rfl] at h1
          rw [if_neg hyx, if_pos rfl] at h2
          exact congrArg (List.cons x) (ih h1 h2)

/-- Python string comparison is irreflexive. -/
theorem pyStrLt_irrefl (s : String) : pyStrLt s s = false :=
  pyStrLtCore_irrefl s.data

/-- Python string comparison is transitive. -/
theorem pyStrLt_trans {a b c : String} (h1 : pyStrLt a b = true)
    (h2 : pyStrLt b c = true) : pyStrLt a c = true :=
  pyStrLtCore_trans h1 h2

/-- Mutually incomparable strings are equal. -/
theorem pyStrLt_connex {a b : String} (h1 : pyStrLt a b = false)
    (h2 : pyStrLt b a = false) : a = b :=
  String.toList_inj.mp (pyStrLtCore_connex h1 h2)

/-- Starting from a known value, the reference maximum always produces a
value. -/
theorem omax_some : ∀ (ns : List String) (m : String), ∃ r, omax (some m) ns = some r := by
  intro ns
  induction ns with
  | nil => intro m; exact ⟨m, rfl⟩
  | cons n ns ih =>
    intro m
    simp only [omax, List.foldl_cons]
    by_cases h : pyStrLt m n = true
    · rw [show omax_step (some m) n = some n from by simp [omax_step, h]]
      exact ih n
    · rw [show omax_step (some m) n = some m from by simp [omax_step, h]]
      exact ih m

/-- The reference maximum returns an element that is greater than or equal to
the start value and to every listed name. -/
theorem omax_spec : ∀ (ns : List String) (m r : String),
    omax (some m) ns = some r →
    (r = m ∨ r ∈ ns) ∧ pyStrLt r m = false ∧ ∀ n ∈ ns, pyStrLt r n = false := by
  intro ns
  induction ns with
  | nil =>
    intro m r h
    simp only [omax, List.foldl_nil, Option.some.injEq] at h
    subst h
    exact ⟨Or.inl rfl, pyStrLt_irrefl _, by simp⟩
  | cons n ns ih =>
    intro m r h
    simp only [omax, List.foldl_cons] at h
    by_cases hmn : pyStrLt m n = true
    · rw [show omax_step (some m) n = some n from by simp [omax_step, hmn]] at h
      obtain ⟨hmem, hbound, hall⟩ := ih n r h
      refine ⟨?_, ?_, ?_⟩
      · rcases hmem with h1 | h1
        · exact Or.inr (by simp [h1])
        · exact Or.inr (by simp [h1])
      · by_cases hc : pyStrLt r m = true
        · exact absurd (pyStrLt_trans hc hmn) (by simp [hbound])
        · simpa using hc
      · intro k hk
        rcases List.mem_cons.mp hk with h1 | h1
        · subst h1; exact hbound
        · exact hall k h1
    · rw [show omax_step (some m) n = some m from by simp [omax_step, hmn]] at h
      obtain ⟨hmem, hbound, hall⟩ := ih m r h
      have hmn2 : pyStrLt m n = false := by simpa using hmn
      refine ⟨?_, hbound, ?_⟩
      · rcases hmem with h1 | h1
        · exact Or.inl h1
        · exact Or.inr (by simp [h1])
      · intro k hk
        rcases List.mem_cons.mp hk with h1 | h1
        · subst h1
          by_cases hrk : pyStrLt r k = true
          · by_cases hkm : pyStrLt k m = true
            · exact absurd (pyStrLt_trans hrk hkm) (by simp [hbound])
            · have hkm2 : pyStrLt k m = false := by simpa using hkm
              have : k = m := pyStrLt_connex hkm2 hmn2
              subst this
              exact absurd hrk (by simp [hbound])
          · simpa using hrk
        · exact hall k h1

/-- The selection loop of `run_backup` computes the reference maximum of the
prefix-matching names, provided the accumulator never holds the empty string
(which the matching names, all carrying a nonempty prefix, guarantee). -/
theorem select_foldl_eq (subvolume : String) : ∀ (lines : List String) (acc : Option String),
    (∀ a, acc = some a → a ≠ "") →
    lines.foldl (select_step subvolume) acc = omax acc (matching_names subvolume lines) := by
  intro lines
  induction lines with
  | nil => intro acc _; rfl
  | cons line rest ih =>
    intro acc hacc
    by_cases h9 : (pySplit line).length < 9
    · have hstep : select_step subvolume acc line = acc := by
        simp [select_step, h9]
      have hm : matching_names subvolume (line :: rest) = matching_names subvolume rest := by
        simp [matching_names, listed_names, h9]
      rw [List.foldl_cons, hstep, hm]
      exact ih acc hacc
    · cases hpre : pyStartswith (pyIndex (pySplit line) 8) (subvolume ++ ".") with
      | false =>
        have hstep : select_step subvolume acc line = acc := by
          simp [select_step, h9, hpre]
        have hm : matching_names subvolume (line :: rest) = matching_names subvolume rest := by
          simp [matching_names, listed_names, h9, hpre]
        rw [List.foldl_cons, hstep, hm]
        exact ih acc hacc
      | true =>
        have hne : pyIndex (pySplit line) 8 ≠ "" := pyStartswith_ne_empty hpre
        have hm : matching_names subvolume (line :: rest)
            = pyIndex (pySplit line) 8 :: matching_names subvolume rest := by
          simp [matching_names, listed_names, h9, hpre]
        have hstep : select_step subvolume acc line
            = omax_step acc (pyIndex (pySplit line) 8) := by
          cases acc with
          | none => simp [select_step, omax_step, h9, hpre]
          | some m =>
            have hm2 : m ≠ "" := hacc m rfl
            simp [select_step, omax_step, h9, hpre, hm2]
        rw [List.foldl_cons, hstep, hm]
        simp only [omax, List.foldl_cons]
        apply ih
        intro a ha
        cases acc with
        | none =>
          simp only [omax_step, Option.some.injEq] at ha
          subst ha
          exact hne
        | some m =>
          simp only [omax_step] at ha
          by_cases hlt : pyStrLt m (pyIndex (pySplit line) 8) = true
          · rw [if_pos hlt] at ha
            have ha2 := Option.some.inj ha
            subst ha2
            exact hne
          · rw [if_neg hlt] at ha
            have ha2 := Option.some.inj ha
            subst ha2
            exact hacc _ rfl

/-- C6: the snapshot selector filters the listed names (field 8 of every line
with at least 9 whitespace fields) to those with prefix `<subvolume>.` and
returns the maximum of that set under plain lexicographic string ordering
(`pyStrLt m n = false` says `n` is not above the result; equivalently every
matching name is equal to or strictly below it), and returns `none` — the
state in which `run_backup` raises `ValueError("No snapshots found.")` — iff
the filtered set is empty. -/
theorem C6_snapshot_selector (subvolume : String) (lines : List String) :
    (matching_names subvolume lines = [] → select_newest subvolume lines = none) ∧
    (matching_names subvolume lines ≠ [] → ∃ m, select_newest subvolume lines = some m) ∧
    (∀ m, select_newest subvolume lines = some m →
      m ∈ matching_names subvolume lines ∧
      ∀ n ∈ matching_names subvolume lines,
        pyStrLt m n = false ∧ (n = m ∨ pyStrLt n m = true)) := by
  have hfold : select_newest subvolume lines = omax none (matching_names subvolume lines) :=
    select_foldl_eq subvolume lines none (by simp)
  refine ⟨?_, ?_, ?_⟩
  · intro h
    rw [hfold, h]
    rfl
  · intro h
    rcases hm : matching_names subvolume lines with _ | ⟨n, ns⟩
    · exact absurd hm h
    · rw [hfold, hm]
      simp only [omax, List.foldl_cons]
      exact omax_some ns n
  · intro m h
    rcases hm : matching_names subvolume lines with _ | ⟨n, ns⟩
    · rw [hfold, hm] at h
      simp [omax] at h
    · rw [hfold, hm] at h
      simp only [omax, List.foldl_cons] at h
      obtain ⟨hmem, hbn, hall⟩ := omax_spec ns n m h
      constructor
      · rcases hmem with h1 | h1 <;> simp [h1]
      · intro k hk
        have hbk : pyStrLt m k = false := by
          rcases List.mem_cons.mp hk with h1 | h1
          · subst h1; exact hbn
          · exact hall k h1
        refine ⟨hbk, ?_⟩
        by_cases hkm : pyStrLt k m = true
        · exact Or.inr hkm
        · exact Or.inl (pyStrLt_connex (by simpa using hkm) hbk)

/-- C6 witness: on the demo listing the selector returns `"@.20250831T0152"`,
which belongs to the matching set and is not below any other matching name;
and on a listing with no matching names it returns the `none` signal. -/
theorem C6_snapshot_selector_witness :
    select_newest "@" (pySplitChar '\n' subvolDemoOutput) = some "@.20250831T0152" ∧
    "@.20250831T0152" ∈ matching_names "@" (pySplitChar '\n' subvolDemoOutput) ∧
    (∀ n ∈ matching_names "@" (pySplitChar '\n' subvolDemoOutput),
      pyStrLt "@.20250831T0152" n = false) ∧
    select_newest "@" (pySplitChar '\n' "ID 259 gen 13 top level 5 path other") = none := by
  have h := (C6_snapshot_selector "@" (pySplitChar '\n' subvolDemoOutput)).2.2
    "@.20250831T0152" (by decide)
  have h0 := (C6_snapshot_selector "@"
    (pySplitChar '\n' "ID 259 gen 13 top level 5 path other")).1 (by decide)
  exact ⟨by decide, h.1, fun n hn => (h.2 n hn).1, h0⟩

/-- C4 amended: the local probe raises `RuntimeError` wrapping the captured
error stream whenever the listing command exits non-zero (and does not parse
its output), while the remote probe unconditionally parses the captured
stdout — its result never depends on the remote exit status. -/
theorem C4_probe_behavior (w : World) (device : String) :
    (w.runExit (.parted device) ≠ 0 →
      get_partitions_local w device
        = ([.run (.parted device)],
           .error (.runtimeError ("Failed to run parted: " ++ w.runErr (.parted device))))) ∧
    get_partitions_ssh w device
      = ([.ssh (.parted device)], parse_parted_output (w.sshOut (.parted device))) := by
  constructor
  · intro h
    simp [get_partitions_local, h]
  · rfl

/-- C4 witness: the local probe at a world whose `parted` exits 1. -/
theorem C4_probe_behavior_witness :
    get_partitions_local w4b "/dev/sda"
      = ([.run (.parted "/dev/sda")],
         .error (.runtimeError "Failed to run parted: parted: device busy")) :=
  (C4_probe_behavior w4b "/dev/sda").1 (by decide)

/-- The local probe returns the parse of stdout when the listing command
succeeds. -/
theorem get_partitions_local_ok (w : World) (f : String) (pr : String × List PartEntry)
    (h1 : w.runExit (.parted f) = 0)
    (h2 : parse_parted_output (w.runOut (.parted f)) = .ok pr) :
    get_partitions_local w f = ([.run (.parted f)], .ok pr) := by
  simp [get_partitions_local, h1, h2]

/-- C2 amended: given a loop-mountable image (local probe succeeds), a failed
loop bind or a failed local mount raises `CalledProcessError` immediately and
the session trace ends there — no cleanup release step (local unmount, loop
detach, remote unmount) is ever attempted; and once the loop bind and the
local mount succeed, the sync engine is invoked regardless of the remote
mount's outcome, which the source never checks. -/
theorem C2_mount_failure_behavior (w : World) (device output_file subvolume : String)
    (pr : String × List PartEntry)
    (hp0 : w.runExit (.parted output_file) = 0)
    (hparse : parse_parted_output (w.runOut (.parted output_file)) = .ok pr) :
    (w.runExit (.losetup_bind "/dev/loop0" output_file) ≠ 0 →
       run_backup w device output_file subvolume
         = ([.run (.parted output_file), .run (.losetup_bind "/dev/loop0" output_file)],
            .error (.calledProcessError (.losetup_bind "/dev/loop0" output_file)))) ∧
    (w.runExit (.losetup_bind "/dev/loop0" output_file) = 0 →
     w.runExit (.mount "/dev/loop0p2" "/mnt") ≠ 0 →
       run_backup w device output_file subvolume
         = ([.run (.parted output_file), .run (.losetup_bind "/dev/loop0" output_file),
             .run (.mount "/dev/loop0p2" "/mnt")],
            .error (.calledProcessError (.mount "/dev/loop0p2" "/mnt")))) ∧
    (w.runExit (.losetup_bind "/dev/loop0" output_file) = 0 →
     w.runExit (.mount "/dev/loop0p2" "/mnt") = 0 →
       Event.run (.btrbk "/tmp/btrbk.conf") ∈ (run_backup w device output_file subvolume).1) := by
  have hg := get_partitions_local_ok w output_file pr hp0 hparse
  refine ⟨?_, ?_, ?_⟩
  · intro hb
    simp [run_backup, hg, hb]
  · intro hb hm
    simp [run_backup, hg, hb, hm]
  · intro hb hm
    by_cases hs : w.runExit (.btrbk "/tmp/btrbk.conf") = 0 <;>
      simp [run_backup, hg, hb, hm, sync_rotate, hs]

/-- C2 witness: with the loop bind failing, the session ends with the bind
error and an event trace containing no cleanup step; with everything local
succeeding, the sync engine is reached. -/
theorem C2_mount_failure_behavior_witness :
    run_backup w2 "/dev/sda" "/backup.img" "@"
      = ([.run (.parted "/backup.img"), .run (.losetup_bind "/dev/loop0" "/backup.img")],
         .error (.calledProcessError (.losetup_bind "/dev/loop0" "/backup.img"))) ∧
    Event.run (.btrbk "/tmp/btrbk.conf") ∈ (run_backup baseWorld "/dev/sda" "/backup.img" "@").1 := by
  constructor
  · exact (C2_mount_failure_behavior w2 "/dev/sda" "/backup.img" "@"
      ("10485760",
        [{ part_num := "1", size := 1048576, start := 0, fs_type := "fat32" },
         { part_num := "2", size := 9437184, start := 1048576, fs_type := "btrfs" }])
      (by decide) (by decide)).1 (by decide)
  · exact (C2_mount_failure_behavior baseWorld "/dev/sda" "/backup.img" "@"
      ("10485760",
        [{ part_num := "1", size := 1048576, start := 0, fs_type := "fat32" },
         { part_num := "2", size := 9437184, start := 1048576, fs_type := "btrfs" }])
      (by decide) (by decide)).2.2 (by decide) (by decide)

/-- Every command in the SYNC/ROTATE stage's trace is one of `btrbk`,
`subvolume delete`, `subvolume list`, `subvolume snapshot` or `set-default`;
in particular no loop-detach command is ever part of it. -/
theorem sync_rotate_no_detach (w : World) (s mp cf ld : String) :
    Event.run (.losetup_detach ld) ∉ (sync_rotate w s mp cf).1 := by
  by_cases hb : w.runExit (.btrbk cf) = 0
  · by_cases hl : w.runExit (.subvol_list mp) = 0
    · cases hsel : select_newest s (pySplitChar '\n' (pyStrip (w.runOut (.subvol_list mp)))) with
      | none => simp [sync_rotate, hb, hl, hsel]
      | some newest =>
        by_cases hne : newest = ""
        · simp [sync_rotate, hb, hl, hsel, hne]
        · by_cases hsnap :
            w.runExit (.subvol_snapshot (mp ++ "/" ++ newest) (mp ++ "/" ++ s)) = 0
          · simp [sync_rotate, hb, hl, hsel, hne, hsnap]
          · simp [sync_rotate, hb, hl, hsel, hne, hsnap]
    · simp [sync_rotate, hb, hl]
  · simp [sync_rotate, hb]

/-- The SYNC/ROTATE stage issues no remote command at all. -/
theorem sync_rotate_no_ssh (w : World) (s mp cf : String) (c : Cmd) :
    Event.ssh c ∉ (sync_rotate w s mp cf).1 := by
  by_cases hb : w.runExit (.btrbk cf) = 0
  · by_cases hl : w.runExit (.subvol_list mp) = 0
    · cases hsel : select_newest s (pySplitChar '\n' (pyStrip (w.runOut (.subvol_list mp)))) with
      | none => simp [sync_rotate, hb, hl, hsel]
      | some newest =>
        by_cases hne : newest = ""
        · simp [sync_rotate, hb, hl, hsel, hne]
        · by_cases hsnap :
            w.runExit (.subvol_snapshot (mp ++ "/" ++ newest) (mp ++ "/" ++ s)) = 0
          · simp [sync_rotate, hb, hl, hsel, hne, hsnap]
          · simp [sync_rotate, hb, hl, hsel, hne, hsnap]
    · simp [sync_rotate, hb, hl]
  · simp [sync_rotate, hb]

/-- C1 amended: when the `try:` body fails with any error `err` — the sync
engine exiting non-zero, or any ROTATE step failing (a failed subvolume
listing, no snapshot found, a failed snapshot or set-default) — with probe,
bind and local mount succeeded, the cleanup stage does run before the error
is re-raised and always attempts the local unmount; when the local unmount
and the loop detach succeed, all three release steps are performed and the
original error `err` is re-raised; but when the local unmount fails, the
loop detach and the remote unmount are skipped and the unmount error
replaces the original — the release steps are not attempted independently. -/
theorem C1_cleanup_behavior (w : World) (device output_file subvolume : String)
    (pr : String × List PartEntry) (err : PyErr)
    (hp0 : w.runExit (.parted output_file) = 0)
    (hparse : parse_parted_output (w.runOut (.parted output_file)) = .ok pr)
    (hloop : w.runExit (.losetup_bind "/dev/loop0" output_file) = 0)
    (hmnt : w.runExit (.mount "/dev/loop0p2" "/mnt") = 0)
    (hfail : (sync_rotate w subvolume "/mnt" "/tmp/btrbk.conf").2 = .error err) :
    Event.run (.umount "/mnt") ∈ (run_backup w device output_file subvolume).1 ∧
    (w.runExit (.umount "/mnt") = 0 → w.runExit (.losetup_detach "/dev/loop0") = 0 →
      Event.run (.losetup_detach "/dev/loop0") ∈ (run_backup w device output_file subvolume).1 ∧
      Event.ssh (.umount "/mnt") ∈ (run_backup w device output_file subvolume).1 ∧
      (run_backup w device output_file subvolume).2 = .error err) ∧
    (w.runExit (.umount "/mnt") ≠ 0 →
      Event.run (.losetup_detach "/dev/loop0") ∉ (run_backup w device output_file subvolume).1 ∧
      Event.ssh (.umount "/mnt") ∉ (run_backup w device output_file subvolume).1 ∧
      (run_backup w device output_file subvolume).2
        = .error (.calledProcessError (.umount "/mnt"))) := by
  have hg := get_partitions_local_ok w output_file pr hp0 hparse
  refine ⟨?_, ?_, ?_⟩
  · by_cases hu : w.runExit (.umount "/mnt") = 0 <;>
    by_cases hd : w.runExit (.losetup_detach "/dev/loop0") = 0 <;>
      simp [run_backup, hg, hloop, hmnt, cleanup_steps, hu, hd]
  · intro hu hd
    refine ⟨?_, ?_, ?_⟩ <;>
      simp [run_backup, hg, hloop, hmnt, cleanup_steps, hu, hd, hfail]
  · intro hu
    refine ⟨?_, ?_, ?_⟩ <;>
      simp [run_backup, hg, hloop, hmnt, cleanup_steps, hu,
        sync_rotate_no_detach w subvolume "/mnt" "/tmp/btrbk.conf" "/dev/loop0",
        sync_rotate_no_ssh w subvolume "/mnt" "/tmp/btrbk.conf" (.umount "/mnt")]

/-- C1 witness, both failure modes: with only the sync engine failing, and
separately with only the subvolume listing (a ROTATE step) failing, cleanup
performs all three release steps and re-raises the original error. -/
theorem C1_cleanup_behavior_witness :
    (Event.run (.umount "/mnt") ∈ (run_backup w1b "/dev/sda" "/backup.img" "@").1 ∧
     Event.run (.losetup_detach "/dev/loop0") ∈ (run_backup w1b "/dev/sda" "/backup.img" "@").1 ∧
     Event.ssh (.umount "/mnt") ∈ (run_backup w1b "/dev/sda" "/backup.img" "@").1 ∧
     (run_backup w1b "/dev/sda" "/backup.img" "@").2
       = .error (.calledProcessError (.btrbk "/tmp/btrbk.conf"))) ∧
    (Event.run (.umount "/mnt") ∈ (run_backup w1c "/dev/sda" "/backup.img" "@").1 ∧
     Event.run (.losetup_detach "/dev/loop0") ∈ (run_backup w1c "/dev/sda" "/backup.img" "@").1 ∧
     Event.ssh (.umount "/mnt") ∈ (run_backup w1c "/dev/sda" "/backup.img" "@").1 ∧
     (run_backup w1c "/dev/sda" "/backup.img" "@").2
       = .error (.runtimeError "Failed to list btrfs subvolumes: list failed")) := by
  have h := C1_cleanup_behavior w1b "/dev/sda" "/backup.img" "@"
    ("10485760",
      [{ part_num := "1", size := 1048576, start := 0, fs_type := "fat32" },
       { part_num := "2", size := 9437184, start := 1048576, fs_type := "btrfs" }])
    (.calledProcessError (.btrbk "/tmp/btrbk.conf"))
    (by decide) (by decide) (by decide) (by decide) (by decide)
  have h2 := h.2.1 (by decide) (by decide)
  have g := C1_cleanup_behavior w1c "/dev/sda" "/backup.img" "@"
    ("10485760",
      [{ part_num := "1", size := 1048576, start := 0, fs_type := "fat32" },
       { part_num := "2", size := 9437184, start := 1048576, fs_type := "btrfs" }])
    (.runtimeError "Failed to list btrfs subvolumes: list failed")
    (by decide) (by decide) (by decide) (by decide) (by decide)
  have g2 := g.2.1 (by decide) (by decide)
  exact ⟨⟨h.1, h2.1, h2.2.1, h2.2.2⟩, ⟨g.1, g2.1, g2.2.1, g2.2.2⟩⟩

/-- C3 amended: once the Image Initializer reaches the raw copy, it issues
`dd bs=1K count=o//1024` for the first-btrfs start offset `o` and writes
`min (1024 * (o // 1024)) deviceLen` bytes: never more than `o`, exactly `o`
when `o` is a multiple of 1024 not exceeding the device length, and strictly
fewer than `o` when `o` is not a multiple of 1024. -/
theorem C3_copy_length (w : World) (device output_file : String)
    (ds : String) (parts : List PartEntry) (n o : Int)
    (hparse : parse_parted_output (w.sshOut (.parted device)) = .ok (ds, parts))
    (hne : parts.isEmpty = false)
    (huuid : pyStrip (w.sshOut (.blkid (get_partition_device device "2"))) ≠ "")
    (hds : pyInt? ds = some n)
    (hoff : get_btrfs_partition_offset parts = .ok o) :
    Event.ssh (.dd device (o.fdiv 1024)) ∈ (create_initial_image w device output_file).1 ∧
    Event.fileWrite output_file (dd_output_len w.deviceLen (o.fdiv 1024))
      ∈ (create_initial_image w device output_file).1 ∧
    dd_output_len w.deviceLen (o.fdiv 1024) ≤ o ∧
    ((1024 : Int) ∣ o → o ≤ w.deviceLen → dd_output_len w.deviceLen (o.fdiv 1024) = o) ∧
    (¬ (1024 : Int) ∣ o → dd_output_len w.deviceLen (o.fdiv 1024) < o) := by
  have hfd : o.fdiv 1024 = o / 1024 := Int.fdiv_eq_ediv o (by norm_num)
  have hmod := Int.emod_nonneg o (show (1024 : Int) ≠ 0 by norm_num)
  have hdm := Int.ediv_add_emod o 1024
  refine ⟨?_, ?_, ?_, ?_, ?_⟩
  · simp [create_initial_image, hparse, hne, huuid, hds, hoff]
  · simp [create_initial_image, hparse, hne, huuid, hds, hoff]
  · have : (1024 : Int) * (o / 1024) ≤ o := by omega
    calc dd_output_len w.deviceLen (o.fdiv 1024) ≤ 1024 * (o.fdiv 1024) := min_le_left _ _
    _ ≤ o := by rw [hfd]; exact this
  · intro hdvd hlen
    have h0 : o % 1024 = 0 := Int.dvd_iff_emod_eq_zero.mp hdvd
    have h1 : (1024 : Int) * (o / 1024) = o := by omega
    rw [dd_output_len, hfd, h1]
    exact min_eq_left hlen
  · intro hdvd
    have h0 : o % 1024 ≠ 0 := fun hc => hdvd (Int.dvd_iff_emod_eq_zero.mpr hc)
    have h1 : (1024 : Int) * (o / 1024) < o := by omega
    calc dd_output_len w.deviceLen (o.fdiv 1024) ≤ 1024 * (o.fdiv 1024) := min_le_left _ _
    _ < o := by rw [hfd]; exact h1

/-- C3 witness: at the odd geometry (btrfs start 1048577) the copy writes
1048576 bytes, strictly fewer than the 1048577-byte start offset. -/
theorem C3_copy_length_witness :
    Event.fileWrite "/backup.img" (dd_output_len w3.deviceLen ((1048577 : Int).fdiv 1024))
      ∈ (create_initial_image w3 "/dev/sda" "/backup.img").1 ∧
    dd_output_len w3.deviceLen ((1048577 : Int).fdiv 1024) < 1048577 := by
  have h := C3_copy_length w3 "/dev/sda" "/backup.img" "10485760"
    [{ part_num := "1", size := 1048577, start := 0, fs_type := "fat32" },
     { part_num := "2", size := 9437183, start := 1048577, fs_type := "btrfs" }]
    10485760 1048577
    (by decide) (by decide) (by decide) (by decide) (by decide)
  exact ⟨h.2.1, h.2.2.2.2 (by decide)⟩

/-- C5 amended: once the Image Initializer has bound the image to the loop
device, the detach is attempted exactly when the filesystem-creation command
succeeds; when mkfs fails, the `CalledProcessError` propagates with no detach
attempted. -/
theorem C5_detach_behavior (w : World) (device output_file : String)
    (ds : String) (parts : List PartEntry) (n o : Int)
    (hparse : parse_parted_output (w.sshOut (.parted device)) = .ok (ds, parts))
    (hne : parts.isEmpty = false)
    (huuid : pyStrip (w.sshOut (.blkid (get_partition_device device "2"))) ≠ "")
    (hds : pyInt? ds = some n)
    (hoff : get_btrfs_partition_offset parts = .ok o)
    (hloop : w.runExit (.losetup_bind "/dev/loop0" output_file) = 0) :
    (w.runExit (.mkfs_btrfs (pyStrip (w.sshOut (.blkid (get_partition_device device "2")))) "/dev/loop0p2") = 0 →
      Event.run (.losetup_detach "/dev/loop0") ∈ (create_initial_image w device output_file).1) ∧
    (w.runExit (.mkfs_btrfs (pyStrip (w.sshOut (.blkid (get_partition_device device "2")))) "/dev/loop0p2") ≠ 0 →
      Event.run (.losetup_detach "/dev/loop0") ∉ (create_initial_image w device output_file).1 ∧
      (create_initial_image w device output_file).2
        = .error (.calledProcessError
            (.mkfs_btrfs (pyStrip (w.sshOut (.blkid (get_partition_device device "2")))) "/dev/loop0p2"))) := by
  constructor
  · intro hmk
    simp [create_initial_image, hparse, hne, huuid, hds, hoff, hloop, hmk]
  · intro hmk
    constructor
    · simp [create_initial_image, hparse, hne, huuid, hds, hoff, hloop, hmk]
    · simp [create_initial_image, hparse, hne, huuid, hds, hoff, hloop, hmk]

/-- C5 witness: with mkfs succeeding (base world) the detach is attempted. -/
theorem C5_detach_behavior_witness :
    Event.run (.losetup_detach "/dev/loop0")
      ∈ (create_initial_image baseWorld "/dev/sda" "/backup.img").1 := by
  have h := C5_detach_behavior baseWorld "/dev/sda" "/backup.img" "10485760"
    [{ part_num := "1", size := 1048576, start := 0, fs_type := "fat32" },
     { part_num := "2", size := 9437184, start := 1048576, fs_type := "btrfs" }]
    10485760 1048576
    (by decide) (by decide) (by decide) (by decide) (by decide) (by decide)
  exact h.1 (by decide)

/-- C9: the Image Initializer reads the UUID via `blkid` on the device path
of partition number 2 — a literal constant, independent of which partition
the probed geometry reports as btrfs — while the raw-copy length comes from
the first partition in listing order whose filesystem type is exactly
`"btrfs"`; the two device paths coincide exactly when that first btrfs
partition's listed index is `"2"`. -/
theorem C9_uuid_partition_mismatch (w : World) (device output_file : String)
    (ds : String) (parts : List PartEntry) (n : Int) (p : PartEntry)
    (hparse : parse_parted_output (w.sshOut (.parted device)) = .ok (ds, parts))
    (hne : parts.isEmpty = false)
    (huuid : pyStrip (w.sshOut (.blkid (get_partition_device device "2"))) ≠ "")
    (hds : pyInt? ds = some n)
    (hfind : parts.find? (fun q => q.fs_type == "btrfs") = some p) :
    Event.ssh (.blkid (get_partition_device device "2"))
      ∈ (create_initial_image w device output_file).1 ∧
    Event.ssh (.dd device (p.start.fdiv 1024)) ∈ (create_initial_image w device output_file).1 ∧
    (get_partition_device device p.part_num = get_partition_device device "2"
      ↔ p.part_num = "2") := by
  have hoff : get_btrfs_partition_offset parts = .ok p.start := by
    simp [get_btrfs_partition_offset, hfind]
  refine ⟨?_, ?_, ?_⟩
  · simp [create_initial_image, hparse, hne, huuid, hds, hoff]
  · simp [create_initial_image, hparse, hne, huuid, hds, hoff]
  · unfold get_partition_device
    cases hdev : (pyStartswith device "/dev/mmcblk" || pyStartswith device "/dev/nvme") with
    | true =>
      simp only [hdev, if_true]
      constructor
      · intro h
        exact str_append_left_cancel h
      · intro h
        rw [h]
    | false =>
      simp only [hdev, Bool.false_eq_true, if_false]
      constructor
      · intro h
        exact str_append_left_cancel h
      · intro h
        rw [h]

/-- C9 witness: at the demo geometry the first btrfs partition is listed with
index 2, so the two references agree there. -/
theorem C9_uuid_partition_mismatch_witness :
    Event.ssh (.blkid (get_partition_device "/dev/sda" "2"))
      ∈ (create_initial_image baseWorld "/dev/sda" "/backup.img").1 ∧
    Event.ssh (.dd "/dev/sda" ((1048576 : Int).fdiv 1024))
      ∈ (create_initial_image baseWorld "/dev/sda" "/backup.img").1 ∧
    (get_partition_device "/dev/sda" "2" = get_partition_device "/dev/sda" "2" ↔ ("2" : String) = "2") := by
  exact C9_uuid_partition_mismatch baseWorld "/dev/sda" "/backup.img" "10485760"
    [{ part_num := "1", size := 1048576, start := 0, fs_type := "fat32" },
     { part_num := "2", size := 9437184, start := 1048576, fs_type := "btrfs" }]
    10485760
    { part_num := "2", size := 9437184, start := 1048576, fs_type := "btrfs" }
    (by decide) (by decide) (by decide) (by decide) (by decide)

/-- C7: with an existing output file (`stat` succeeds) whose length parses to
`L` and a probed remote geometry whose disk size parses to `n`: if `L = n`
the Image Initializer is skipped entirely — the pre-flight trace is exactly
the two read-only probes — and the session proceeds directly to the backup
stage; if `L ≠ n` the session exits with code 1 printing the size-mismatch
message, having attempted only the two read-only probes (no mutation of local
or remote state). -/
theorem C7_preflight_check (w : World) (device output : String) (L : Int)
    (S : String) (parts : List PartEntry) (n : Int)
    (hstat : w.runExit (.stat output) = 0)
    (hL : pyInt? (pyStrip (w.runOut (.stat output))) = some L)
    (hparse : parse_parted_output (w.sshOut (.parted device)) = .ok (S, parts))
    (hn : pyInt? S = some n) :
    (L = n → main_check w device output
       = ([.run (.stat output), .ssh (.parted device)] ++ (run_backup w device output "@").1,
          .backupResult (run_backup w device output "@").2)) ∧
    (L ≠ n →
       main_check w device output
         = ([.run (.stat output), .ssh (.parted device)], .exit1 (size_mismatch_msg L S)) ∧
       ∀ e ∈ (main_check w device output).1, e.isReadOnly = true) := by
  constructor
  · intro he
    subst he
    simp [main_check, hstat, hL, hparse, hn]
  · intro hne
    have h1 : main_check w device output
        = ([.run (.stat output), .ssh (.parted device)], .exit1 (size_mismatch_msg L S)) := by
      simp [main_check, hstat, hL, hparse, hn, hne]
    refine ⟨h1, ?_⟩
    rw [h1]
    intro e he
    rcases List.mem_cons.mp he with rfl | he2
    · rfl
    · rcases List.mem_cons.mp he2 with rfl | he3
      · rfl
      · exact absurd he3 (List.not_mem_nil _)

/-- C7 witness: the base world (sizes both 10485760) proceeds straight to the
backup after the two probes; the mismatch world (file length 999) aborts with
the size-mismatch message after the two probes. -/
theorem C7_preflight_check_witness :
    main_check baseWorld "/dev/sda" "/backup.img"
      = ([.run (.stat "/backup.img"), .ssh (.parted "/dev/sda")]
          ++ (run_backup baseWorld "/dev/sda" "/backup.img" "@").1,
         .backupResult (run_backup baseWorld "/dev/sda" "/backup.img" "@").2) ∧
    main_check w7 "/dev/sda" "/backup.img"
      = ([.run (.stat "/backup.img"), .ssh (.parted "/dev/sda")],
         .exit1 (size_mismatch_msg 999 "10485760")) := by
  constructor
  · exact (C7_preflight_check baseWorld "/dev/sda" "/backup.img" 10485760 "10485760"
      [{ part_num := "1", size := 1048576, start := 0, fs_type := "fat32" },
       { part_num := "2", size := 9437184, start := 1048576, fs_type := "btrfs" }]
      10485760 (by decide) (by decide) (by decide) (by decide)).1 rfl
  · exact ((C7_preflight_check w7 "/dev/sda" "/backup.img" 999 "10485760"
      [{ part_num := "1", size := 1048576, start := 0, fs_type := "fat32" },
       { part_num := "2", size := 9437184, start := 1048576, fs_type := "btrfs" }]
      10485760 (by decide) (by decide) (by decide) (by decide)).2 (by decide)).1

/-- On data lines whose kept lines (at least 5 colon fields) all carry
integer-parseable start and end fields, the partition-line parser succeeds
and produces, in line order, one record per kept line with `size = end -
start`. -/
theorem parse_data_lines_ok : ∀ (ls : List String),
    (∀ l ∈ ls, ¬ (pySplitChar ':' l).length < 5 →
      (pyInt? (pyRstripB (pyIndex (pySplitChar ':' l) 2))).isSome ∧
      (pyInt? (pyRstripB (pyIndex (pySplitChar ':' l) 1))).isSome) →
    ∃ entries, parse_data_lines ls = .ok entries ∧
      entries.length = (kept_lines ls).length ∧
      ∀ i, i < entries.length →
        ∃ e s,
          pyInt? (pyRstripB (pyIndex (pySplitChar ':' ((kept_lines ls).getD i "")) 2)) = some e ∧
          pyInt? (pyRstripB (pyIndex (pySplitChar ':' ((kept_lines ls).getD i "")) 1)) = some s ∧
          entries.getD i { part_num := "", size := 0, start := 0, fs_type := "" }
            = { part_num := pyIndex (pySplitChar ':' ((kept_lines ls).getD i "")) 0,
                size := e - s, start := s,
                fs_type := pyIndex (pySplitChar ':' ((kept_lines ls).getD i "")) 4 } := by
  intro ls
  induction ls with
  | nil =>
    intro _
    exact ⟨[], rfl, rfl, by intro i hi; simp at hi⟩
  | cons l rest ih =>
    intro hwf
    by_cases h5 : (pySplitChar ':' l).length < 5
    · have hk : kept_lines (l :: rest) = kept_lines rest := by
        simp [kept_lines, h5]
      obtain ⟨es, he, hlen, hidx⟩ := ih (fun x hx => hwf x (List.mem_cons_of_mem _ hx))
      refine ⟨es, ?_, ?_, ?_⟩
      · simp [parse_data_lines, h5, he]
      · rw [hk]
        exact hlen
      · rw [hk]
        exact hidx
    · obtain ⟨h2, h1⟩ := hwf l (List.mem_cons_self _ _) h5
      obtain ⟨e, he2⟩ := Option.isSome_iff_exists.mp h2
      obtain ⟨s, hs2⟩ := Option.isSome_iff_exists.mp h1
      obtain ⟨es, hes, hlen, hidx⟩ := ih (fun x hx => hwf x (List.mem_cons_of_mem _ hx))
      have hk : kept_lines (l :: rest) = l :: kept_lines rest := by
        simp [kept_lines, h5]
      refine ⟨{ part_num := pyIndex (pySplitChar ':' l) 0, size := e - s, start := s,
                fs_type := pyIndex (pySplitChar ':' l) 4 } :: es, ?_, ?_, ?_⟩
      · simp [parse_data_lines, h5, he2, hs2, hes]
      · rw [hk]
        simp [hlen]
      · intro i hi
        rw [hk]
        cases i with
        | zero => exact ⟨e, s, by simpa using he2, by simpa using hs2, by simp⟩
        | succ j =>
          simp only [List.getD_cons_succ]
          exact hidx j (by simpa using hi)

/-- C8: for every well-formed machine-readable listing — at least 3 lines, a
disk line with at least 2 colon fields, and every kept data line (at least 5
colon fields) carrying integer start and end fields — the parser succeeds
with the stripped disk size and one record per kept data line, in the
listing's line order, whose `size` is exactly that line's end offset minus
its start offset (both after stripping the trailing `B`). -/
theorem C8_parse_sizes (output l0 l1 l2 : String) (rest : List String)
    (d0 sizeField : String) (dtail : List String)
    (hsplit : pySplitChar '\n' (pyStrip output) = l0 :: l1 :: l2 :: rest)
    (hdisk : pySplitChar ':' l1 = d0 :: sizeField :: dtail)
    (hwf : ∀ l ∈ l2 :: rest, ¬ (pySplitChar ':' l).length < 5 →
      (pyInt? (pyRstripB (pyIndex (pySplitChar ':' l) 2))).isSome ∧
      (pyInt? (pyRstripB (pyIndex (pySplitChar ':' l) 1))).isSome) :
    ∃ entries, parse_parted_output output = .ok (pyRstripB sizeField, entries) ∧
      entries.length = (kept_lines (l2 :: rest)).length ∧
      ∀ i, i < entries.length →
        ∃ e s,
          pyInt? (pyRstripB (pyIndex (pySplitChar ':' ((kept_lines (l2 :: rest)).getD i "")) 2)) = some e ∧
          pyInt? (pyRstripB (pyIndex (pySplitChar ':' ((kept_lines (l2 :: rest)).getD i "")) 1)) = some s ∧
          entries.getD i { part_num := "", size := 0, start := 0, fs_type := "" }
            = { part_num := pyIndex (pySplitChar ':' ((kept_lines (l2 :: rest)).getD i "")) 0,
                size := e - s, start := s,
                fs_type := pyIndex (pySplitChar ':' ((kept_lines (l2 :: rest)).getD i "")) 4 } := by
  obtain ⟨entries, he, hlen, hidx⟩ := parse_data_lines_ok (l2 :: rest) hwf
  refine ⟨entries, ?_, hlen, hidx⟩
  rw [parse_parted_output, hsplit]
  simp [hdisk, he]

/-- C8 witness: the demo listing parses to two records; the second kept line
`2:1048576B:10485760B:9437184B:btrfs::;` yields `size = 10485760 - 1048576`. -/
theorem C8_parse_sizes_witness :
    ∃ entries, parse_parted_output partedDemoOutput = .ok (pyRstripB "10485760B", entries) ∧
      entries.length = (kept_lines ["1:0B:1048576B:1048576B:fat32::;",
                                    "2:1048576B:10485760B:9437184B:btrfs::;"]).length ∧
      ∀ i, i < entries.length →
        ∃ e s,
          pyInt? (pyRstripB (pyIndex (pySplitChar ':' ((kept_lines ["1:0B:1048576B:1048576B:fat32::;", "2:1048576B:10485760B:9437184B:btrfs::;"]).getD i "")) 2)) = some e ∧
          pyInt? (pyRstripB (pyIndex (pySplitChar ':' ((kept_lines ["1:0B:1048576B:1048576B:fat32::;", "2:1048576B:10485760B:9437184B:btrfs::;"]).getD i "")) 1)) = some s ∧
          entries.getD i { part_num := "", size := 0, start := 0, fs_type := "" }
            = { part_num := pyIndex (pySplitChar ':' ((kept_lines ["1:0B:1048576B:1048576B:fat32::;", "2:1048576B:10485760B:9437184B:btrfs::;"]).getD i "")) 0,
                size := e - s, start := s,
                fs_type := pyIndex (pySplitChar ':' ((kept_lines ["1:0B:1048576B:1048576B:fat32::;", "2:1048576B:10485760B:9437184B:btrfs::;"]).getD i "")) 4 } :=
  C8_parse_sizes partedDemoOutput "BYT;" "/dev/sda:10485760B:scsi:512:512:msdos:Disk:;"
    "1:0B:1048576B:1048576B:fat32::;" ["2:1048576B:10485760B:9437184B:btrfs::;"]
    "/dev/sda" "10485760B" ["scsi", "512", "512", "msdos", "Disk", ";"]
    (by decide) (by decide) (by decide)

/-- Data lines containing a bad line (kept, but with a non-integer start or
end field) make the partition-line parser raise the conversion error. -/
theorem parse_data_lines_conv : ∀ (ls : List String), (∃ l ∈ ls, badConvLine l) →
    ∃ s, parse_data_lines ls = .error (.convError s) := by
  intro ls
  induction ls with
  | nil =>
    intro h
    simp at h
  | cons l rest ih =>
    intro h
    by_cases h5 : (pySplitChar ':' l).length < 5
    · have hrest : ∃ x ∈ rest, badConvLine x := by
        rcases h with ⟨x, hx, hbad⟩
        rcases List.mem_cons.mp hx with h1 | h1
        · subst h1
          exact absurd h5 hbad.1
        · exact ⟨x, h1, hbad⟩
      obtain ⟨s, hs⟩ := ih hrest
      exact ⟨s, by simp [parse_data_lines, h5, hs]⟩
    · cases he : pyInt? (pyRstripB (pyIndex (pySplitChar ':' l) 2)) with
      | none =>
        exact ⟨pyRstripB (pyIndex (pySplitChar ':' l) 2),
          by simp [parse_data_lines, h5, he]⟩
      | some e =>
        cases hs1 : pyInt? (pyRstripB (pyIndex (pySplitChar ':' l) 1)) with
        | none =>
          exact ⟨pyRstripB (pyIndex (pySplitChar ':' l) 1),
            by simp [parse_data_lines, h5, he, hs1]⟩
        | some s =>
          have hrest : ∃ x ∈ rest, badConvLine x := by
            rcases h with ⟨x, hx, hbad⟩
            rcases List.mem_cons.mp hx with h1 | h1
            · subst h1
              rcases hbad.2 with hb | hb
              · rw [he] at hb
                exact absurd hb (by simp)
              · rw [hs1] at hb
                exact absurd hb (by simp)
            · exact ⟨x, h1, hbad⟩
          obtain ⟨s2, hs2⟩ := ih hrest
          refine ⟨s2, ?_⟩
          simp [parse_data_lines, h5, he, hs1, hs2]

/-- C10: any listing with at least 3 lines (and a disk line of at least 2
colon fields) that contains a partition line with at least 5 colon fields
whose start or end field — after stripping the trailing `B` — is not a
decimal integer makes the parser raise the unguarded `int()` conversion
error: the line is neither skipped (the fewer-than-5-fields rule does not
apply to it) nor reported as the `FormatError`
(`ValueError("Invalid parted output")`). -/
theorem C10_conv_exception (output l0 l1 l2 : String) (rest : List String)
    (d0 sizeField : String) (dtail : List String)
    (hsplit : pySplitChar '\n' (pyStrip output) = l0 :: l1 :: l2 :: rest)
    (hdisk : pySplitChar ':' l1 = d0 :: sizeField :: dtail)
    (hbad : ∃ l ∈ l2 :: rest, badConvLine l) :
    (∃ s, parse_parted_output output = .error (.convError s)) ∧
    parse_parted_output output ≠ .error (.valueError "Invalid parted output") ∧
    ∀ pr, parse_parted_output output ≠ .ok pr := by
  obtain ⟨s, hs⟩ := parse_data_lines_conv (l2 :: rest) hbad
  have hmain : parse_parted_output output = .error (.convError s) := by
    rw [parse_parted_output, hsplit]
    simp [hdisk, hs]
  exact ⟨⟨s, hmain⟩, by rw [hmain]; simp, fun pr => by rw [hmain]; simp⟩

/-- C10 witness: a 3-line listing whose only partition line has 6 colon
fields but the start field `abc`. -/
theorem C10_conv_exception_witness :
    (∃ s, parse_parted_output "BYT;\n/dev/sda:100B::::;\n1:abcB:10B:x:ext4:;"
        = .error (.convError s)) ∧
    parse_parted_output "BYT;\n/dev/sda:100B::::;\n1:abcB:10B:x:ext4:;"
      ≠ .error (.valueError "Invalid parted output") := by
  have h := C10_conv_exception "BYT;\n/dev/sda:100B::::;\n1:abcB:10B:x:ext4:;"
    "BYT;" "/dev/sda:100B::::;" "1:abcB:10B:x:ext4:;" []
    "/dev/sda" "100B" ["", "", "", ";"]
    (by decide) (by decide) (by decide)
  exact ⟨h.1, h.2.1⟩

end BBBB
